import Mathlib

/-!
Shallow embedding of `cc/lto.go` (soong LTO propagation and variant
synthesis) together with proofs about it.

The Go file decides, per module, the effective LTO mode (None / Thin /
Full), propagates LTO requirements down static-link edges
(`ltoDepsMutator`), and clones modules into per-mode variants
(`ltoMutator`).  Machinery owned by collaborators (environment access,
blueprint graph engine, arch detection) is represented by explicit
records of booleans/strings that mirror exactly the queries the Go code
makes of them.
-/

set_option maxRecDepth 4096

/-- `Lto` sub-struct of `LTOProperties`: the user-facing `*bool` fields
`Never`, `Full`, `Thin` (nil pointers modelled as `none`). -/
structure LtoUser where
  Never : Option Bool
  Full : Option Bool
  Thin : Option Bool
deriving DecidableEq, Repr

/-- `LTOProperties` from lto.go: user props plus the mutated dep flags. -/
structure LTOProperties where
  Lto : LtoUser
  FullEnabled : Bool
  ThinEnabled : Bool
  NoLtoEnabled : Bool
  FullDep : Bool
  ThinDep : Bool
  NoLtoDep : Bool
  Use_clang_lld : Option Bool
  Whole_program_vtables : Option Bool
deriving DecidableEq, Repr

/-- `proptools.Bool`: a nil `*bool` reads as `false`. -/
def pBool (o : Option Bool) : Bool := o.getD false

/-- Global, environment-derived configuration queried by lto.go:
`IsEnvTrue("DISABLE_LTO")`, `IsEnvFalse("GLOBAL_THINLTO")`,
`IsEnvTrue("USE_THINLTO_CACHE")`, and whether
`strings.Contains(config.SDClangPath, "9.0")` holds. -/
structure Config where
  disableLTOEnvTrue : Bool
  globalThinLTOEnvFalse : Bool
  useThinltoCacheEnvTrue : Bool
  sdclangPath90 : Bool
deriving DecidableEq, Repr

/-- Per-module context queries made of `BaseModuleContext` by lto.go. -/
structure Ctx where
  multilib32 : Bool
  isCfi : Bool
  host : Bool
  testBinary : Bool
  testLibrary : Bool
  isVndk : Bool
  riscv64 : Bool
  isPgoCompile : Bool
  isAfdoCompile : Bool
  thinltoCacheDir : String
deriving DecidableEq, Repr

/-- `GlobalThinLTO`: true unless the env var is explicitly false. -/
def GlobalThinLTO (c : Config) : Bool := !c.globalThinLTOEnvFalse

/-- `lto.FullLTO()`. -/
def FullLTO (p : LTOProperties) : Bool := pBool p.Lto.Full || p.FullEnabled

/-- `lto.ThinLTO()`. -/
def ThinLTO (p : LTOProperties) : Bool := pBool p.Lto.Thin || p.ThinEnabled

/-- `lto.Never()`. -/
def Never (p : LTOProperties) : Bool := pBool p.Lto.Never || p.NoLtoEnabled

/-- `lto.begin`: under DISABLE_LTO, set `NoLtoEnabled`. -/
def ltoBegin (c : Config) (p : LTOProperties) : LTOProperties :=
  if c.disableLTOEnvTrue then { p with NoLtoEnabled := true } else p

/-- `lto.useClangLld`: the property if set, else true. -/
def useClangLld (p : LTOProperties) : Bool :=
  match p.Use_clang_lld with
  | some b => b
  | none => true

/-- `lto.DefaultThinLTO`. -/
def DefaultThinLTO (c : Config) (ctx : Ctx) (p : LTOProperties) : Bool :=
  GlobalThinLTO c && !(Never p) && !ctx.multilib32 && !ctx.isCfi &&
    !ctx.host && !(ctx.testBinary || ctx.testLibrary) && !ctx.isVndk

/-- `lto.LTO`: whether any LTO flavour is active for the module. -/
def LTOActive (c : Config) (ctx : Ctx) (p : LTOProperties) : Bool :=
  ThinLTO p || FullLTO p || DefaultThinLTO c ctx p

/-- The LTO mode a module is built in, following exactly the dispatch
order of `lto.flags`: Thin before Full before default-thin. -/
inductive LTOMode where
  | none
  | thin
  | full
deriving DecidableEq, Repr

/-- The resolved mode of a module: the branch of `lto.flags` that fires
for it (`ThinLTO` first, then `FullLTO`, then the default-thin arm),
or `none` when `lto.LTO` is false. -/
def resolvedMode (c : Config) (ctx : Ctx) (p : LTOProperties) : LTOMode :=
  if LTOActive c ctx p then
    if ThinLTO p then LTOMode.thin
    else if FullLTO p then LTOMode.full
    else LTOMode.thin
  else LTOMode.none

/-- `LocalOrGlobalFlags`: the flag lists lto.go touches. -/
structure LocalOrGlobalFlags where
  CFlags : List String
  AsFlags : List String
  LdFlags : List String
deriving DecidableEq, Repr

/-- The `Flags` value threaded through `lto.flags`. -/
structure Flags where
  Local : LocalOrGlobalFlags
  Sdclang : Bool
deriving DecidableEq, Repr

/-- `inList` helper from cc. -/
def inList (s : String) (l : List String) : Bool := l.contains s

/-- `lto.flags`: a faithful translation of the flag-emission function. -/
def ltoFlags (c : Config) (ctx : Ctx) (p : LTOProperties) (flags : Flags) : Flags :=
  if inList "-fsanitize=fuzzer-no-link" flags.Local.CFlags then flags
  else if ctx.riscv64 then flags
  else if LTOActive c ctx p then
    let cfld : String × String :=
      if ThinLTO p then
        if flags.Sdclang && !c.sdclangPath90 then ("-flto=thin", "")
        else ("-flto=thin -fsplit-lto-unit", "")
      else if FullLTO p then ("-flto", "")
      else ("-flto=thin -fsplit-lto-unit", "-Wl,--lto-O0")
    let f1 : Flags :=
      { flags with Local :=
        { flags.Local with
          CFlags := flags.Local.CFlags ++ [cfld.1],
          AsFlags := flags.Local.AsFlags ++ [cfld.1],
          LdFlags := flags.Local.LdFlags ++ [cfld.1, cfld.2] } }
    let f2 : Flags :=
      if pBool p.Whole_program_vtables then
        { f1 with Local :=
          { f1.Local with CFlags := f1.Local.CFlags ++ ["-fwhole-program-vtables"] } }
      else f1
    let f3 : Flags :=
      if (DefaultThinLTO c ctx p || ThinLTO p) && c.useThinltoCacheEnvTrue && useClangLld p then
        { f2 with Local :=
          { f2.Local with LdFlags := f2.Local.LdFlags ++
            ["-Wl,--thinlto-cache-dir=" ++ ctx.thinltoCacheDir,
             "-Wl,--thinlto-cache-policy=cache_size=10%:cache_size_bytes=10g"] } }
      else f2
    let f4 : Flags :=
      if !ctx.isPgoCompile && !ctx.isAfdoCompile then
        { f3 with Local :=
          { f3.Local with LdFlags := f3.Local.LdFlags ++
            ["-Wl,-plugin-opt,-import-instr-limit=40",
             "-Wl,-mllvm,-inline-threshold=600",
             "-Wl,-mllvm,-inlinehint-threshold=750",
             "-Wl,-mllvm,-unroll-threshold=600"] } }
      else f3
    f4
  else flags

/-- Dependency-tag classification as tested in `ltoDepsMutator`: a
`libraryDependencyTag` that is or is not static, the object tags
`objDepTag` / `reuseObjTag`, or any other tag. -/
inductive DependencyTag where
  | libStatic
  | libShared
  | objDep
  | reuseObj
  | other
deriving DecidableEq, Repr

/-- The recursion test of the `WalkDeps` callback in `ltoDepsMutator`:
library tags must be static, otherwise the tag must be `objDepTag` or
`reuseObjTag`; anything else stops the walk. -/
def ltoTransparent : DependencyTag → Bool
  | DependencyTag.libStatic => true
  | DependencyTag.objDep => true
  | DependencyTag.reuseObj => true
  | _ => false

/-- A module node: its LTO properties, the install-suppression flags set
on clones, and a stable name (clones keep their base module's name). -/
structure CCModule where
  lto : LTOProperties
  PreventInstall : Bool
  HideFromMake : Bool
  name : Nat
deriving DecidableEq, Repr

/-- A dependency edge between module names, carrying its tag. -/
structure Dep where
  src : Nat
  dst : Nat
  tag : DependencyTag
deriving DecidableEq, Repr

/-- The module graph the mutators run over. -/
structure Graph where
  modules : List CCModule
  deps : List Dep
deriving DecidableEq, Repr

/-- One transparent edge from `a` to `b`. -/
def edgeStep (g : Graph) (a b : Nat) : Bool :=
  g.deps.any fun e => a == e.src && b == e.dst && ltoTransparent e.tag

/-- Fuel-bounded transitive reachability over transparent edges
(at least one edge; intermediate nodes are module names). -/
def reachesFuel (g : Graph) : Nat → Nat → Nat → Bool
  | 0, _, _ => false
  | fuel + 1, a, b =>
    edgeStep g a b ||
      (g.modules.map fun m => m.name).any fun k =>
        edgeStep g a k && reachesFuel g fuel k b

/-- `d` is a transitive static (LTO-transparent) dependency of `a`:
the set of modules `WalkDeps` visits from `a` in `ltoDepsMutator`. -/
def reaches (g : Graph) (a b : Nat) : Bool :=
  reachesFuel g g.modules.length a b

/-- During `m`'s `WalkDeps` walk, dependency `d` is visited with `full`
true at the root: the walk from `m` reaches `d` and `m` is Full. -/
def walkReqFull (g : Graph) (m d : CCModule) : Bool :=
  FullLTO m.lto && reaches g m.name d.name

/-- As `walkReqFull`, for a Thin root. -/
def walkReqThin (g : Graph) (m d : CCModule) : Bool :=
  ThinLTO m.lto && reaches g m.name d.name

/-- As `walkReqFull`, for a Never root. -/
def walkReqNever (g : Graph) (m d : CCModule) : Bool :=
  Never m.lto && reaches g m.name d.name

/-- Some module's walk reaches `d` with a Full requirement. -/
def requestFull (g : Graph) (d : CCModule) : Bool :=
  g.modules.any fun m => walkReqFull g m d

/-- Some module's walk reaches `d` with a Thin requirement. -/
def requestThin (g : Graph) (d : CCModule) : Bool :=
  g.modules.any fun m => walkReqThin g m d

/-- Some module's walk reaches `d` with a Never requirement. -/
def requestNever (g : Graph) (d : CCModule) : Bool :=
  g.modules.any fun m => walkReqNever g m d

/-- `ltoDepsMutator`, flag effect on the whole graph.  The callback sets
`FullDep` on a visited dep when the root is Full and the dep is not,
`ThinDep` when `!globalThinLTO` and the root is Thin and the dep is not,
`NoLtoDep` when `globalThinLTO` and the root is Never and the dep is
not.  The walk's recursion choice depends only on edge tags, and the
marks never feed the `FullLTO`/`ThinLTO`/`Never` predicates, so the
per-root walks commute and the pass is their pointwise disjunction. -/
def depsPass (c : Config) (g : Graph) : Graph :=
  { g with modules := g.modules.map fun d =>
      { d with lto :=
        { d.lto with
          FullDep := d.lto.FullDep || (!FullLTO d.lto && requestFull g d),
          ThinDep := d.lto.ThinDep ||
            (!GlobalThinLTO c && !ThinLTO d.lto && requestThin g d),
          NoLtoDep := d.lto.NoLtoDep ||
            (GlobalThinLTO c && !Never d.lto && requestNever g d) } } }

/-- The modules for which `ltoDepsMutator` raises
`PropertyErrorf("LTO", "FullLTO and ThinLTO are mutually exclusive")`:
those with both `FullLTO()` and `ThinLTO()` true. -/
def depsMutatorErrors (g : Graph) : List CCModule :=
  g.modules.filter fun m => FullLTO m.lto && ThinLTO m.lto

/-- The `variationNames` list built at the top of `ltoMutator`: the
default `""` plus one entry per unmet dep requirement. -/
def variationNames (c : Config) (p : LTOProperties) : List String :=
  let n0 : List String := [""]
  let n1 := if p.FullDep && !FullLTO p then n0 ++ ["lto-full"] else n0
  let n2 := if !GlobalThinLTO c && p.ThinDep && !ThinLTO p then n1 ++ ["lto-thin"] else n1
  let n3 := if GlobalThinLTO c && p.NoLtoDep && !Never p then n2 ++ ["lto-none"] else n2
  n3

/-- The net effect of the `SetDependencyVariation` calls in
`ltoMutator`: each call overwrites the previous one, so the last
applicable call wins (`lto-none` is deliberately last). -/
def dependencyVariation (c : Config) (p : LTOProperties) : Option String :=
  let v0 : Option String := none
  let v1 := if FullLTO p then some "lto-full" else v0
  let v2 := if !GlobalThinLTO c && ThinLTO p then some "lto-thin" else v1
  let v3 := if GlobalThinLTO c && Never p then some "lto-none" else v2
  v3

/-- The per-variation module produced by `CreateVariations` plus the
loop body of `ltoMutator`: the `""` variation is the untouched default;
a named variation gets its `*Enabled` flag, is marked
`PreventInstall`/`HideFromMake`, and has its dep flags cleared. -/
def applyVariation (vname : String) (m : CCModule) : CCModule :=
  if vname == "" then m
  else
    { m with
      PreventInstall := true,
      HideFromMake := true,
      lto :=
        { m.lto with
          FullEnabled := vname == "lto-full" || m.lto.FullEnabled,
          ThinEnabled := vname == "lto-thin" || m.lto.ThinEnabled,
          NoLtoEnabled := vname == "lto-none" || m.lto.NoLtoEnabled,
          FullDep := false,
          ThinDep := false,
          NoLtoDep := false } }

/-- `ltoMutator` restricted to one module: when more than one variation
name is needed, `CreateVariations` replaces the module by the list of
its variations; otherwise the module is left untouched. -/
def ltoMutatorModule (c : Config) (m : CCModule) : List CCModule :=
  let names := variationNames c m.lto
  if names.length > 1 then names.map fun n => applyVariation n m else [m]

/-- The bottom-up `ltoMutator` pass over the whole graph. -/
def synthPass (c : Config) (g : Graph) : Graph :=
  { g with modules := (g.modules.map fun m => ltoMutatorModule c m).flatten }

/-- `begin` applied to every module of the graph. -/
def beginAll (c : Config) (g : Graph) : Graph :=
  { g with modules := g.modules.map fun m => { m with lto := ltoBegin c m.lto } }

/-- One propagation-plus-synthesis round: the top-down `ltoDepsMutator`
followed by the bottom-up `ltoMutator`. -/
def runPasses (c : Config) (g : Graph) : Graph :=
  synthPass c (depsPass c g)

/-- All-nil user LTO properties. -/
def noUser : LtoUser := { Never := none, Full := none, Thin := none }

/-- A module with no LTO configuration at all. -/
def defaultProps : LTOProperties :=
  { Lto := noUser, FullEnabled := false, ThinEnabled := false,
    NoLtoEnabled := false, FullDep := false, ThinDep := false,
    NoLtoDep := false, Use_clang_lld := none, Whole_program_vtables := none }

/-- Explicit `lto: { full: true }`. -/
def fullProps : LTOProperties :=
  { defaultProps with Lto := { noUser with Full := some true } }

/-- Explicit `lto: { thin: true }`. -/
def thinProps : LTOProperties :=
  { defaultProps with Lto := { noUser with Thin := some true } }

/-- Explicit `lto: { never: true }`. -/
def neverProps : LTOProperties :=
  { defaultProps with Lto := { noUser with Never := some true } }

/-- Both explicit full and explicit thin (the I1 violation). -/
def fullThinProps : LTOProperties :=
  { defaultProps with Lto := { noUser with Full := some true, Thin := some true } }

/-- A plain module node named `n` with properties `p`. -/
def mkModule (n : Nat) (p : LTOProperties) : CCModule :=
  { lto := p, PreventInstall := false, HideFromMake := false, name := n }

/-- Two-module graph `A -(t)-> B`. -/
def pairG (t : DependencyTag) (pA pB : LTOProperties) : Graph :=
  { modules := [mkModule 0 pA, mkModule 1 pB],
    deps := [{ src := 0, dst := 1, tag := t }] }

/-- Three-module chain `A -(t)-> B -(static)-> C`. -/
def chainG (t : DependencyTag) (pA pB pC : LTOProperties) : Graph :=
  { modules := [mkModule 0 pA, mkModule 1 pB, mkModule 2 pC],
    deps := [{ src := 0, dst := 1, tag := t },
             { src := 1, dst := 2, tag := DependencyTag.libStatic }] }

/-- Environment with everything unset: LTO enabled, global thin-LTO on
(`GLOBAL_THINLTO` is only off when explicitly false). -/
def cfgOn : Config :=
  { disableLTOEnvTrue := false, globalThinLTOEnvFalse := false,
    useThinltoCacheEnvTrue := false, sdclangPath90 := false }

/-- Environment with `GLOBAL_THINLTO=false`: global thin default off. -/
def cfgOff : Config :=
  { disableLTOEnvTrue := false, globalThinLTOEnvFalse := true,
    useThinltoCacheEnvTrue := false, sdclangPath90 := false }

/-- Environment with `DISABLE_LTO=true` (and global thin default off). -/
def cfgKill : Config :=
  { disableLTOEnvTrue := true, globalThinLTOEnvFalse := true,
    useThinltoCacheEnvTrue := false, sdclangPath90 := false }

/-- A device, non-CFI, non-test, non-VNDK, 64-bit module context:
eligible for default thin LTO. -/
def ctxElig : Ctx :=
  { multilib32 := false, isCfi := false, host := false, testBinary := false,
    testLibrary := false, isVndk := false, riscv64 := false,
    isPgoCompile := false, isAfdoCompile := false, thinltoCacheDir := "out/thinlto-cache" }

/-- `App -(static)-> Lib`, App explicitly full. -/
def gAB : Graph := pairG DependencyTag.libStatic fullProps defaultProps

/-- `A -(static)-> B -(static)-> C`, A and B explicitly full, C plain. -/
def gC2 : Graph := chainG DependencyTag.libStatic fullProps fullProps defaultProps

/-- `A -(static)-> B`, A with the conflicting full+thin setting. -/
def gC3 : Graph := pairG DependencyTag.libStatic fullThinProps defaultProps

/-- A plain module that accumulated both a Full and a Thin request. -/
def reqBothProps : LTOProperties :=
  { defaultProps with FullDep := true, ThinDep := true }

/-- A plain module that accumulated a Full request. -/
def fullDepProps : LTOProperties :=
  { defaultProps with FullDep := true }

/-- Empty flag lists, non-sdclang. -/
def emptyFlags : Flags :=
  { Local := { CFlags := [], AsFlags := [], LdFlags := [] }, Sdclang := false }

/-- Flag lists containing the fuzzer cflag that short-circuits `lto.flags`. -/
def fuzzerFlags : Flags :=
  { Local := { CFlags := ["-fsanitize=fuzzer-no-link"], AsFlags := [], LdFlags := [] },
    Sdclang := false }

/-- Helper: a module with no pending dep requests is left untouched by
`ltoMutator` (its `variationNames` list is just the default `""`). -/
theorem ltoMutatorModule_no_reqs (c : Config) (m : CCModule)
  (h1 : m.lto.FullDep = false) (h2 : m.lto.ThinDep = false) (h3 : m.lto.NoLtoDep = false) :
  ltoMutatorModule c m = [m] := by
  simp [ltoMutatorModule, variationNames, h1, h2, h3]

/-- Helper: the thin-LTO cache-dir linker flag never collides with the
`-Wl,--lto-O0` flag, whatever the cache directory path is. -/
theorem cacheDirFlagNe (s : String) : ("-Wl,--thinlto-cache-dir=" ++ s) ≠ "-Wl,--lto-O0" := by
  intro h
  have h2 := congrArg String.length h
  rw [String.length_append] at h2
  have e1 : ("-Wl,--thinlto-cache-dir=" : String).length = 24 := rfl
  have e2 : ("-Wl,--lto-O0" : String).length = 12 := rfl
  rw [e1, e2] at h2
  omega


/-- C1 counterexample: with `DISABLE_LTO` on, a module with explicit
`lto: { full: true }` still resolves to Full (not None/Never) — `begin`
only sets `NoLtoEnabled`, which `FullLTO()`/`ThinLTO()` ignore — and
running the two mutator passes on `App -(static)-> Lib` still creates an
`lto-full` clone of Lib (3 modules, one with `FullEnabled`), so clones
beyond the default variant are created. -/
theorem C1_disable_lto_counterexample :
  resolvedMode cfgKill ctxElig (ltoBegin cfgKill fullProps) = LTOMode.full ∧
  (runPasses cfgKill (beginAll cfgKill gAB)).modules.length = 3 ∧
  ((runPasses cfgKill (beginAll cfgKill gAB)).modules.filter fun m =>
    m.lto.FullEnabled).length = 1 := by
  decide

/-- C1 amended: `DISABLE_LTO` sets `NoLtoEnabled` on every module, so
`Never()` holds and default-thin resolution is suppressed — a module
with neither explicit nor propagated Full/Thin resolves to None — but
explicit/propagated Full and Thin are unaffected by the kill switch. -/
theorem C1_disable_lto_amended (c : Config) (ctx : Ctx) (p : LTOProperties)
  (h : c.disableLTOEnvTrue = true) :
  Never (ltoBegin c p) = true ∧
  DefaultThinLTO c ctx (ltoBegin c p) = false ∧
  FullLTO (ltoBegin c p) = FullLTO p ∧
  ThinLTO (ltoBegin c p) = ThinLTO p ∧
  (FullLTO p = false → ThinLTO p = false →
    resolvedMode c ctx (ltoBegin c p) = LTOMode.none) := by
  have eF : FullLTO (ltoBegin c p) = FullLTO p := by simp [FullLTO, ltoBegin, h]
  have eT : ThinLTO (ltoBegin c p) = ThinLTO p := by simp [ThinLTO, ltoBegin, h]
  have eN : Never (ltoBegin c p) = true := by simp [Never, ltoBegin, h]
  have eD : DefaultThinLTO c ctx (ltoBegin c p) = false := by simp [DefaultThinLTO, eN]
  refine ⟨eN, eD, eF, eT, ?_⟩
  intro hF hT
  simp [resolvedMode, LTOActive, eF, eT, eD, hF, hT]

/-- C1 witness: the amended statement evaluated under `DISABLE_LTO` on
a module with no explicit settings. -/
theorem C1_disable_lto_witness :
  cfgKill.disableLTOEnvTrue = true ∧
  (Never (ltoBegin cfgKill defaultProps) = true ∧
   DefaultThinLTO cfgKill ctxElig (ltoBegin cfgKill defaultProps) = false ∧
   FullLTO (ltoBegin cfgKill defaultProps) = FullLTO defaultProps ∧
   ThinLTO (ltoBegin cfgKill defaultProps) = ThinLTO defaultProps ∧
   (FullLTO defaultProps = false → ThinLTO defaultProps = false →
     resolvedMode cfgKill ctxElig (ltoBegin cfgKill defaultProps) = LTOMode.none)) :=
  ⟨rfl, C1_disable_lto_amended cfgKill ctxElig defaultProps rfl⟩

/-- C2 counterexample: in the chain `A -(static)-> B -(static)-> C`
with A resolved Full and B explicitly Full, A's walk still descends past
B: it reaches C with the Full request (`walkReqFull`) and C is not
already Full, so C receives `FullDep = true` — the traversal does not
stop below a dependency already set to the requested mode. -/
theorem C2_stop_descend_counterexample :
  FullLTO fullProps = true ∧
  (walkReqFull gC2 (mkModule 0 fullProps) (mkModule 2 defaultProps) &&
    !FullLTO defaultProps) = true ∧
  ((depsPass cfgOff gC2).modules.map fun m => m.lto.FullDep) = [false, false, true] := by
  decide

/-- C2 amended: the walk does not mark a dependency that is already at
the requested mode (B keeps its old `FullDep`), but it keeps descending
past it: modules strictly below an explicitly-Full dependency still
receive `FullDep` from the walk when they are not themselves Full. -/
theorem C2_stop_descend_amended (c : Config) (pA pB pC : LTOProperties)
  (hA : FullLTO pA = true) (hB : FullLTO pB = true) (hC : FullLTO pC = false) :
  walkReqFull (chainG DependencyTag.libStatic pA pB pC) (mkModule 0 pA) (mkModule 2 pC) = true ∧
  ((depsPass c (chainG DependencyTag.libStatic pA pB pC)).modules.map fun m => m.lto.FullDep)
      = [pA.FullDep, pB.FullDep, true] := by
  have r01 : reaches (chainG DependencyTag.libStatic pA pB pC) 0 1 = true := rfl
  have r02 : reaches (chainG DependencyTag.libStatic pA pB pC) 0 2 = true := rfl
  have r12 : reaches (chainG DependencyTag.libStatic pA pB pC) 1 2 = true := rfl
  simp only [chainG, mkModule] at r01 r02 r12
  simp [depsPass, chainG, mkModule, requestFull, walkReqFull, hA, hB, hC, r01, r02, r12]

/-- C2 witness: the amended statement on the concrete chain with A and
B explicitly full and C plain. -/
theorem C2_stop_descend_witness :
  FullLTO fullProps = true ∧ FullLTO defaultProps = false ∧
  (walkReqFull (chainG DependencyTag.libStatic fullProps fullProps defaultProps)
      (mkModule 0 fullProps) (mkModule 2 defaultProps) = true ∧
   ((depsPass cfgOff (chainG DependencyTag.libStatic fullProps fullProps defaultProps)).modules.map
      fun m => m.lto.FullDep) = [fullProps.FullDep, fullProps.FullDep, true]) :=
  ⟨by decide, by decide,
   C2_stop_descend_amended cfgOff fullProps fullProps defaultProps
     (by decide) (by decide) (by decide)⟩

/-- C3 counterexample: a module with both explicit Full and explicit
Thin is reported (`depsMutatorErrors`), yet the propagation walk still
runs for it: its static dependency receives both `FullDep` and
`ThinDep` — the code does not stop propagating after `PropertyErrorf`. -/
theorem C3_mutual_exclusion_counterexample :
  mkModule 0 fullThinProps ∈ depsMutatorErrors gC3 ∧
  ((depsPass cfgOff gC3).modules.map fun m => (m.lto.FullDep, m.lto.ThinDep))
    = [(false, false), (true, true)] := by
  decide

/-- C3 amended: the configuration error is raised for exactly the
modules with both `FullLTO()` and `ThinLTO()` true (no other module is
reported), but when it is raised the walk nevertheless continues for
that module: its dependency still receives the Full request. -/
theorem C3_mutual_exclusion_amended (g : Graph) (m : CCModule) (c : Config)
  (pA pB : LTOProperties) :
  (m ∈ depsMutatorErrors g ↔ (m ∈ g.modules ∧ FullLTO m.lto = true ∧ ThinLTO m.lto = true)) ∧
  (FullLTO pA = true → ThinLTO pA = true → FullLTO pB = false →
    ((depsPass c (pairG DependencyTag.libStatic pA pB)).modules.map fun x => x.lto.FullDep)
      = [pA.FullDep, true]) := by
  constructor
  · simp [depsMutatorErrors, List.mem_filter]
  · intro h1 h2 h3
    have r01 : reaches (pairG DependencyTag.libStatic pA pB) 0 1 = true := rfl
    have r11 : reaches (pairG DependencyTag.libStatic pA pB) 1 1 = false := rfl
    have r00 : reaches (pairG DependencyTag.libStatic pA pB) 0 0 = false := rfl
    have r10 : reaches (pairG DependencyTag.libStatic pA pB) 1 0 = false := rfl
    simp only [pairG, mkModule] at r01 r11 r00 r10
    simp [depsPass, pairG, mkModule, requestFull, walkReqFull, h1, h3, r01, r11, r00, r10]

/-- C3 witness: the amended statement at the two-module graph with the
conflicting module, implications discharged at concrete input. -/
theorem C3_mutual_exclusion_witness :
  (mkModule 0 fullThinProps ∈ depsMutatorErrors gC3 ↔
    (mkModule 0 fullThinProps ∈ gC3.modules ∧
     FullLTO fullThinProps = true ∧ ThinLTO fullThinProps = true)) ∧
  (FullLTO fullThinProps = true → ThinLTO fullThinProps = true →
   FullLTO defaultProps = false →
    ((depsPass cfgOff (pairG DependencyTag.libStatic fullThinProps defaultProps)).modules.map
      fun x => x.lto.FullDep) = [fullThinProps.FullDep, true]) :=
  C3_mutual_exclusion_amended gC3 (mkModule 0 fullThinProps) cfgOff fullThinProps defaultProps

/-- C4: propagation crosses exactly the LTO-transparent edge kinds.
The transparent kinds are precisely static-library, object-input and
reuse-object-input tags; on the chain `A -(static)-> B -(static)-> C`
with A resolved Full both B and C receive `FullDep`; with the `A -> B`
edge reclassified as `other`, neither does; and across a single edge of
arbitrary kind the dependency is marked exactly when the kind is
transparent. -/
theorem C4_edge_kinds (c : Config) (pA pB pC : LTOProperties)
  (hA : FullLTO pA = true) (hB : FullLTO pB = false) (hC : FullLTO pC = false)
  (hBd : pB.FullDep = false) (hCd : pC.FullDep = false) :
  (∀ t, ltoTransparent t = true ↔
      (t = DependencyTag.libStatic ∨ t = DependencyTag.objDep ∨ t = DependencyTag.reuseObj)) ∧
  ((depsPass c (chainG DependencyTag.libStatic pA pB pC)).modules.map fun m => m.lto.FullDep)
      = [pA.FullDep, true, true] ∧
  ((depsPass c (chainG DependencyTag.other pA pB pC)).modules.map fun m => m.lto.FullDep)
      = [pA.FullDep, false, false] ∧
  (∀ t, ((depsPass c (pairG t pA pB)).modules.map fun m => m.lto.FullDep)
      = [pA.FullDep, ltoTransparent t]) := by
  refine ⟨?_, ?_, ?_, ?_⟩
  · intro t; cases t <;> simp [ltoTransparent]
  · have r01 : reaches (chainG DependencyTag.libStatic pA pB pC) 0 1 = true := rfl
    have r02 : reaches (chainG DependencyTag.libStatic pA pB pC) 0 2 = true := rfl
    have r12 : reaches (chainG DependencyTag.libStatic pA pB pC) 1 2 = true := rfl
    simp only [chainG, mkModule] at r01 r02 r12
    simp [depsPass, chainG, mkModule, requestFull, walkReqFull, hA, hB, hC, hBd, hCd, r01, r02, r12]
  · have r01 : reaches (chainG DependencyTag.other pA pB pC) 0 1 = false := rfl
    have r02 : reaches (chainG DependencyTag.other pA pB pC) 0 2 = false := rfl
    have r12 : reaches (chainG DependencyTag.other pA pB pC) 1 2 = true := rfl
    simp only [chainG, mkModule] at r01 r02 r12
    simp [depsPass, chainG, mkModule, requestFull, walkReqFull, hA, hB, hC, hBd, hCd, r01, r02, r12]
  · intro t
    have r01 : reaches (pairG t pA pB) 0 1 = ltoTransparent t := by cases t <;> rfl
    have r11 : reaches (pairG t pA pB) 1 1 = false := by cases t <;> rfl
    have r00 : reaches (pairG t pA pB) 0 0 = false := by cases t <;> rfl
    have r10 : reaches (pairG t pA pB) 1 0 = false := by cases t <;> rfl
    simp only [pairG, mkModule] at r01 r11 r00 r10
    simp [depsPass, pairG, mkModule, requestFull, walkReqFull, hA, hB, hBd, r01, r11, r00, r10]

/-- C4 witness: the edge-kind statement at the concrete chain with A
explicitly full and B, C plain. -/
theorem C4_edge_kinds_witness :
  FullLTO fullProps = true ∧ FullLTO defaultProps = false ∧
  ((∀ t, ltoTransparent t = true ↔
      (t = DependencyTag.libStatic ∨ t = DependencyTag.objDep ∨ t = DependencyTag.reuseObj)) ∧
   ((depsPass cfgOff (chainG DependencyTag.libStatic fullProps defaultProps defaultProps)).modules.map
      fun m => m.lto.FullDep) = [fullProps.FullDep, true, true] ∧
   ((depsPass cfgOff (chainG DependencyTag.other fullProps defaultProps defaultProps)).modules.map
      fun m => m.lto.FullDep) = [fullProps.FullDep, false, false] ∧
   (∀ t, ((depsPass cfgOff (pairG t fullProps defaultProps)).modules.map fun m => m.lto.FullDep)
      = [fullProps.FullDep, ltoTransparent t])) :=
  ⟨by decide, by decide,
   C4_edge_kinds cfgOff fullProps defaultProps defaultProps
     (by decide) (by decide) (by decide) (by decide) (by decide)⟩

/-- C5: for a module with neither explicit nor propagated Full/Thin,
the resolved mode is Thin exactly when the global thin default is on,
Never is not in effect, and the module is not 32-bit-multilib, not CFI,
not host, not a test binary or test library, and not VNDK; in every
other case it resolves to None. -/
theorem C5_default_thin (c : Config) (ctx : Ctx) (p : LTOProperties)
  (hT : ThinLTO p = false) (hF : FullLTO p = false) :
  (resolvedMode c ctx p = LTOMode.thin ↔
    (GlobalThinLTO c = true ∧ Never p = false ∧ ctx.multilib32 = false ∧
     ctx.isCfi = false ∧ ctx.host = false ∧ ctx.testBinary = false ∧
     ctx.testLibrary = false ∧ ctx.isVndk = false)) ∧
  (resolvedMode c ctx p = LTOMode.thin ∨ resolvedMode c ctx p = LTOMode.none) := by
  constructor
  · simp [resolvedMode, LTOActive, DefaultThinLTO, hT, hF]
  · simp [resolvedMode, LTOActive, hT, hF]

/-- C5 witness: the default-thin characterization evaluated on a plain
module in an eligible context with the global thin default on. -/
theorem C5_default_thin_witness :
  ThinLTO defaultProps = false ∧ FullLTO defaultProps = false ∧
  ((resolvedMode cfgOn ctxElig defaultProps = LTOMode.thin ↔
    (GlobalThinLTO cfgOn = true ∧ Never defaultProps = false ∧ ctxElig.multilib32 = false ∧
     ctxElig.isCfi = false ∧ ctxElig.host = false ∧ ctxElig.testBinary = false ∧
     ctxElig.testLibrary = false ∧ ctxElig.isVndk = false)) ∧
   (resolvedMode cfgOn ctxElig defaultProps = LTOMode.thin ∨
    resolvedMode cfgOn ctxElig defaultProps = LTOMode.none)) :=
  ⟨by decide, by decide, C5_default_thin cfgOn ctxElig defaultProps (by decide) (by decide)⟩

/-- C6: clone synthesis is on-demand and clones are internal-only.
A module with no pending requests is left alone (no clones); with the
global thin default off, a mode-None module holding both a Full and a
Thin request is replaced by the default module plus exactly an
`lto-full` clone and an `lto-thin` clone; the original stays mode None,
the clones resolve Full and Thin, and every clone is
`PreventInstall`/`HideFromMake` with its request flags cleared. -/
theorem C6_clone_on_demand (c : Config) (ctx : Ctx) (m : CCModule)
  (hg : GlobalThinLTO c = false)
  (hfd : m.lto.FullDep = true) (htd : m.lto.ThinDep = true)
  (hf : FullLTO m.lto = false) (ht : ThinLTO m.lto = false) :
  (∀ m2 : CCModule, m2.lto.FullDep = false → m2.lto.ThinDep = false →
    m2.lto.NoLtoDep = false → ltoMutatorModule c m2 = [m2]) ∧
  ltoMutatorModule c m = [m, applyVariation "lto-full" m, applyVariation "lto-thin" m] ∧
  resolvedMode c ctx m.lto = LTOMode.none ∧
  resolvedMode c ctx (applyVariation "lto-full" m).lto = LTOMode.full ∧
  resolvedMode c ctx (applyVariation "lto-thin" m).lto = LTOMode.thin ∧
  (∀ cl ∈ (ltoMutatorModule c m).drop 1,
    cl.PreventInstall = true ∧ cl.HideFromMake = true ∧
    cl.lto.FullDep = false ∧ cl.lto.ThinDep = false ∧ cl.lto.NoLtoDep = false) := by
  have hlist : ltoMutatorModule c m
      = [m, applyVariation "lto-full" m, applyVariation "lto-thin" m] := by
    simp [ltoMutatorModule, variationNames, applyVariation, hg, hfd, htd, hf, ht]
  have ht2 := ht
  simp only [ThinLTO, Bool.or_eq_false_iff] at ht2
  refine ⟨?_, hlist, ?_, ?_, ?_, ?_⟩
  · intro m2 h1 h2 h3
    exact ltoMutatorModule_no_reqs c m2 h1 h2 h3
  · simp [resolvedMode, LTOActive, DefaultThinLTO, hg, hf, ht]
  · simp [applyVariation, resolvedMode, LTOActive, FullLTO, ThinLTO, ht2.1, ht2.2]
  · simp [applyVariation, resolvedMode, LTOActive, ThinLTO]
  · intro cl hcl
    rw [hlist] at hcl
    simp at hcl
    rcases hcl with rfl | rfl <;> simp [applyVariation]

/-- C6 witness: the clone-on-demand statement at a concrete module with
both requests pending and the global thin default off. -/
theorem C6_clone_on_demand_witness :
  GlobalThinLTO cfgOff = false ∧ reqBothProps.FullDep = true ∧
  reqBothProps.ThinDep = true ∧ FullLTO reqBothProps = false ∧
  ThinLTO reqBothProps = false ∧
  ((∀ m2 : CCModule, m2.lto.FullDep = false → m2.lto.ThinDep = false →
     m2.lto.NoLtoDep = false → ltoMutatorModule cfgOff m2 = [m2]) ∧
   ltoMutatorModule cfgOff (mkModule 7 reqBothProps)
     = [mkModule 7 reqBothProps,
        applyVariation "lto-full" (mkModule 7 reqBothProps),
        applyVariation "lto-thin" (mkModule 7 reqBothProps)] ∧
   resolvedMode cfgOff ctxElig (mkModule 7 reqBothProps).lto = LTOMode.none ∧
   resolvedMode cfgOff ctxElig (applyVariation "lto-full" (mkModule 7 reqBothProps)).lto
     = LTOMode.full ∧
   resolvedMode cfgOff ctxElig (applyVariation "lto-thin" (mkModule 7 reqBothProps)).lto
     = LTOMode.thin ∧
   (∀ cl ∈ (ltoMutatorModule cfgOff (mkModule 7 reqBothProps)).drop 1,
     cl.PreventInstall = true ∧ cl.HideFromMake = true ∧
     cl.lto.FullDep = false ∧ cl.lto.ThinDep = false ∧ cl.lto.NoLtoDep = false)) :=
  ⟨by decide, by decide, by decide, by decide, by decide,
   C6_clone_on_demand cfgOff ctxElig (mkModule 7 reqBothProps)
     (by decide) (by decide) (by decide) (by decide) (by decide)⟩

/-- C7 counterexample: running propagation + synthesis a second time on
the already-synthesized graph of `App -(static)-> Lib` (App explicitly
full) is not idempotent: the first run yields 3 modules, the second run
yields 4, and Lib then has two distinct `lto-full` clones — the original
keeps its `FullDep` flag, so its clone is re-created, violating the
at-most-one-clone-per-(module, mode) part of the claim as well. -/
theorem C7_idempotence_counterexample :
  (runPasses cfgOff gAB).modules.length = 3 ∧
  (runPasses cfgOff (runPasses cfgOff gAB)).modules.length = 4 ∧
  ((runPasses cfgOff (runPasses cfgOff gAB)).modules.filter fun m =>
    m.name == 1 && m.lto.FullEnabled).length = 2 := by
  decide

/-- C7 amended: idempotence holds only for the clones, not the graph:
a clone produced by `ltoMutator` has its request flags cleared, so any
later `ltoMutator` run (under any configuration) leaves it untouched;
but an original module keeps its request flags, so whenever it still has
`FullDep` set and is not Full, a repeated run again produces at least
one extra variant of it. -/
theorem C7_idempotence_amended (c c2 : Config) (m cl : CCModule)
  (hcl : cl ∈ (ltoMutatorModule c m).drop 1) :
  ltoMutatorModule c2 cl = [cl] ∧
  (m.lto.FullDep = true → FullLTO m.lto = false → 2 ≤ (ltoMutatorModule c m).length) := by
  have hflags : cl.lto.FullDep = false ∧ cl.lto.ThinDep = false ∧ cl.lto.NoLtoDep = false := by
    unfold ltoMutatorModule at hcl
    by_cases h1 : (m.lto.FullDep && !FullLTO m.lto) = true <;>
    by_cases h2 : (!GlobalThinLTO c && m.lto.ThinDep && !ThinLTO m.lto) = true <;>
    by_cases h3 : (GlobalThinLTO c && m.lto.NoLtoDep && !Never m.lto) = true <;>
    simp [variationNames, h1, h2, h3] at hcl <;>
    rcases hcl with rfl | rfl | rfl <;> simp [applyVariation]
  constructor
  · exact ltoMutatorModule_no_reqs c2 cl hflags.1 hflags.2.1 hflags.2.2
  · intro hd hf
    have h2len : 2 ≤ (variationNames c m.lto).length := by
      simp [variationNames, hd, hf]
      split <;> split <;> simp
    have hgt : 1 < (variationNames c m.lto).length := by omega
    simp only [ltoMutatorModule]
    rw [if_pos hgt, List.length_map]
    exact h2len

/-- C7 witness: the amended statement at a concrete `lto-full` clone of
a module with a pending Full request. -/
theorem C7_idempotence_witness :
  applyVariation "lto-full" (mkModule 1 fullDepProps)
      ∈ (ltoMutatorModule cfgOff (mkModule 1 fullDepProps)).drop 1 ∧
  (ltoMutatorModule cfgOff (applyVariation "lto-full" (mkModule 1 fullDepProps))
      = [applyVariation "lto-full" (mkModule 1 fullDepProps)] ∧
   ((mkModule 1 fullDepProps).lto.FullDep = true →
    FullLTO (mkModule 1 fullDepProps).lto = false →
    2 ≤ (ltoMutatorModule cfgOff (mkModule 1 fullDepProps)).length)) :=
  ⟨by decide,
   C7_idempotence_amended cfgOff cfgOff (mkModule 1 fullDepProps)
     (applyVariation "lto-full" (mkModule 1 fullDepProps)) (by decide)⟩

/-- C8 counterexample: under the global thin default, a module resolved
Never selects the `"lto-none"` dependency variation — which is not the
default (`""`) variant: the default variant of a plain dependency
resolves to auto-Thin in that configuration, so the variant the code
selects is a dedicated None-mode clone, not the dependency's default
variant as the claim's gloss states. -/
theorem C8_never_precedence_counterexample :
  dependencyVariation cfgOn neverProps = some "lto-none" ∧
  dependencyVariation cfgOn neverProps ≠ some "" ∧
  resolvedMode cfgOn ctxElig defaultProps = LTOMode.thin := by
  decide

/-- C8 amended: under the global thin default, a module resolved Never
selects — last, overriding any Full/Thin selection — the `lto-none`
variant of its dependencies: this variant is the internal no-LTO clone,
which resolves to mode None, while the dependency's default variant
would resolve to auto-Thin whenever default-thin applies to it. -/
theorem C8_never_precedence_amended (c : Config) (ctx : Ctx) (p q : LTOProperties)
  (hg : GlobalThinLTO c = true) (hn : Never p = true)
  (hqt : ThinLTO q = false) (hqf : FullLTO q = false) :
  dependencyVariation c p = some "lto-none" ∧
  resolvedMode c ctx (applyVariation "lto-none" (mkModule 0 q)).lto = LTOMode.none ∧
  (DefaultThinLTO c ctx q = true → resolvedMode c ctx q = LTOMode.thin) := by
  refine ⟨?_, ?_, ?_⟩
  · simp [dependencyVariation, hg, hn]
  · simp [applyVariation, mkModule, resolvedMode, LTOActive, DefaultThinLTO, Never,
      ThinLTO, FullLTO] at *
    simp [hqt, hqf]
  · intro hd
    simp [resolvedMode, LTOActive, hqt, hqf, hd]

/-- C8 witness: the amended statement at an explicitly-Never module and
a plain dependency in an eligible context. -/
theorem C8_never_precedence_witness :
  GlobalThinLTO cfgOn = true ∧ Never neverProps = true ∧
  ThinLTO defaultProps = false ∧ FullLTO defaultProps = false ∧
  (dependencyVariation cfgOn neverProps = some "lto-none" ∧
   resolvedMode cfgOn ctxElig (applyVariation "lto-none" (mkModule 0 defaultProps)).lto
     = LTOMode.none ∧
   (DefaultThinLTO cfgOn ctxElig defaultProps = true →
    resolvedMode cfgOn ctxElig defaultProps = LTOMode.thin)) :=
  ⟨by decide, by decide, by decide, by decide,
   C8_never_precedence_amended cfgOn ctxElig neverProps defaultProps
     (by decide) (by decide) (by decide) (by decide)⟩

/-- C9: `lto.flags` returns its input unchanged whenever the local
C flags contain `-fsanitize=fuzzer-no-link` or the target architecture
is riscv64, for every module and configuration (so in particular
whatever LTO mode the module resolves to). -/
theorem C9_flags_unchanged (c : Config) (ctx : Ctx) (p : LTOProperties) (fl : Flags)
  (h : inList "-fsanitize=fuzzer-no-link" fl.Local.CFlags = true ∨ ctx.riscv64 = true) :
  ltoFlags c ctx p fl = fl := by
  rcases h with h | h
  · simp [ltoFlags, h]
  · by_cases hf : inList "-fsanitize=fuzzer-no-link" fl.Local.CFlags = true <;>
      simp [ltoFlags, hf, h]

/-- C9 witness: the frame statement evaluated on a fuzzer-configured
module that would otherwise get full-LTO flags. -/
theorem C9_flags_unchanged_witness :
  (inList "-fsanitize=fuzzer-no-link" fuzzerFlags.Local.CFlags = true ∨
    ctxElig.riscv64 = true) ∧
  ltoFlags cfgOn ctxElig fullProps fuzzerFlags = fuzzerFlags :=
  ⟨Or.inl (by decide),
   C9_flags_unchanged cfgOn ctxElig fullProps fuzzerFlags (Or.inl (by decide))⟩

/-- C10: a module that is LTO-active only through default-thin (neither
`ThinLTO()` nor `FullLTO()`) gets `-Wl,--lto-O0` in its linker flags on
top of `-flto=thin -fsplit-lto-unit`, whereas a module with explicit or
propagated Thin never gains a `-Wl,--lto-O0` flag — so the two thin
flavours produce different flag sets. -/
theorem C10_default_thin_flags (c : Config) (ctx : Ctx) (p : LTOProperties) (fl : Flags)
  (hFz : inList "-fsanitize=fuzzer-no-link" fl.Local.CFlags = false)
  (hR : ctx.riscv64 = false) :
  (DefaultThinLTO c ctx p = true → ThinLTO p = false → FullLTO p = false →
    "-Wl,--lto-O0" ∈ (ltoFlags c ctx p fl).Local.LdFlags ∧
    "-flto=thin -fsplit-lto-unit" ∈ (ltoFlags c ctx p fl).Local.CFlags) ∧
  (ThinLTO p = true → "-Wl,--lto-O0" ∉ fl.Local.LdFlags →
    "-Wl,--lto-O0" ∉ (ltoFlags c ctx p fl).Local.LdFlags) := by
  constructor
  · intro hD hT hF
    have hAct : LTOActive c ctx p = true := by simp [LTOActive, hD]
    simp only [ltoFlags, hFz, hR, hAct, hT, hF]
    simp
    constructor
    · split <;> split <;> split <;> simp
    · split <;> split <;> split <;> simp
  · intro hT hNo
    have hAct : LTOActive c ctx p = true := by simp [LTOActive, hT]
    simp only [ltoFlags, hFz, hR, hAct, hT]
    simp
    split <;> split <;> split <;> split <;>
      simp [List.mem_append, hNo] <;>
      intro hbad <;>
      exact cacheDirFlagNe ctx.thinltoCacheDir hbad.symm

/-- C10 witness: default-thin and explicit-thin flag emission compared
at concrete inputs: the default-thin module gets `-Wl,--lto-O0`, the
explicitly thin one does not. -/
theorem C10_default_thin_flags_witness :
  inList "-fsanitize=fuzzer-no-link" emptyFlags.Local.CFlags = false ∧
  ctxElig.riscv64 = false ∧
  ((DefaultThinLTO cfgOn ctxElig defaultProps = true → ThinLTO defaultProps = false →
    FullLTO defaultProps = false →
    "-Wl,--lto-O0" ∈ (ltoFlags cfgOn ctxElig defaultProps emptyFlags).Local.LdFlags ∧
    "-flto=thin -fsplit-lto-unit" ∈ (ltoFlags cfgOn ctxElig defaultProps emptyFlags).Local.CFlags) ∧
   (ThinLTO defaultProps = true → "-Wl,--lto-O0" ∉ emptyFlags.Local.LdFlags →
    "-Wl,--lto-O0" ∉ (ltoFlags cfgOn ctxElig defaultProps emptyFlags).Local.LdFlags)) ∧
  inList "-fsanitize=fuzzer-no-link" emptyFlags.Local.CFlags = false ∧
  ((DefaultThinLTO cfgOn ctxElig thinProps = true → ThinLTO thinProps = false →
    FullLTO thinProps = false →
    "-Wl,--lto-O0" ∈ (ltoFlags cfgOn ctxElig thinProps emptyFlags).Local.LdFlags ∧
    "-flto=thin -fsplit-lto-unit" ∈ (ltoFlags cfgOn ctxElig thinProps emptyFlags).Local.CFlags) ∧
   (ThinLTO thinProps = true → "-Wl,--lto-O0" ∉ emptyFlags.Local.LdFlags →
    "-Wl,--lto-O0" ∉ (ltoFlags cfgOn ctxElig thinProps emptyFlags).Local.LdFlags)) :=
  ⟨by decide, by decide,
   C10_default_thin_flags cfgOn ctxElig defaultProps emptyFlags (by decide) (by decide),
   by decide,
   C10_default_thin_flags cfgOn ctxElig thinProps emptyFlags (by decide) (by decide)⟩
